import Mathlib

/-!
Shallow embedding of the `ding` thermal-printer job pipeline
(`services/text.py`, `services/image.py`, `services/text_renderer.py`,
`services/printer.py`) and proofs of the specification claims.

External effects (USB/file device connection attempts, the external
`cowsay` process, the `emoji`/`unidecode` libraries, font measurement)
are modelled as explicit oracle parameters; everything else follows the
Python source line by line.
-/

namespace Ding

/-! ## Text preparer (`services/text.py`) -/

/-- Outcome of locating and running the external `cowsay` generator.
`notFound` models `find_cowsay_command() = None`; `timeout` models
`subprocess.TimeoutExpired`; `raised` models any other exception caught
by the blanket `except` in `generate_cowsay`; `exited code out err`
models a completed `subprocess.run` with its return code and stdout. -/
inductive CowsayOutcome where
  | notFound
  | timeout
  | raised (msg : String)
  | exited (code : Nat) (stdout : String) (stderr : String)
deriving DecidableEq, Repr

/-- Environment for the text preparer: the pure external string
transforms (`emoji.demojize`, `unidecode.unidecode`) and the result of
invoking the external cowsay tool on a given text and width. -/
structure TextEnv where
  demojize : String → String
  unidecode : String → String
  cowsayRun : String → Nat → CowsayOutcome

/-- Embeds `convert_emojis_to_text` from `services/text.py`. -/
def convert_emojis_to_text (env : TextEnv) (text : String) : String :=
  env.demojize text

/-- Embeds `encode_for_escpos` from `services/text.py`: demojize, then unidecode. -/
def encode_for_escpos (env : TextEnv) (text : String) : String :=
  env.unidecode (convert_emojis_to_text env text)

/-- Python `str.strip()` whitespace set. -/
def pyWhitespace (c : Char) : Bool :=
  c = ' ' || c = '\t' || c = '\n' || c = '\x0d' || c = '\x0b' || c = '\x0c'

/-- Python truthiness test `paragraph.strip()`: true iff some character
is not whitespace. -/
def pyStripNonempty (s : String) : Bool :=
  s.toList.any (fun c => !(pyWhitespace c))

/-- Word-wrapping of one paragraph to `width` columns, modelling
`textwrap.fill(paragraph, width=max_width)`: greedy filling of
whitespace-separated words. -/
def fillParagraph (width : Nat) (paragraph : String) : String :=
  let words := (paragraph.split (fun c => pyWhitespace c)).filter (fun w => w ≠ "")
  let step := fun (acc : List String × String) (w : String) =>
    let (done, cur) := acc
    if cur = "" then (done, w)
    else if cur.length + 1 + w.length ≤ width then (done, cur ++ " " ++ w)
    else (done ++ [cur], w)
  let (done, cur) := words.foldl step ([], "")
  String.intercalate "\n" (if cur = "" then done else done ++ [cur])

/-- Embeds `wrap_text_for_printer` from `services/text.py`: wrap each
`\n`-separated paragraph independently; a whitespace-only paragraph
becomes an empty output line. -/
def wrap_text_for_printer (text : String) (maxWidth : Nat) : String :=
  let lines := (text.splitOn "\n").map (fun paragraph =>
    if pyStripNonempty paragraph then fillParagraph maxWidth paragraph else "")
  String.intercalate "\n" lines

/-- Embeds `generate_cowsay` from `services/text.py`: returns `none` when the
tool is missing, times out, raises, or exits nonzero; otherwise the
captured stdout. -/
def generate_cowsay (env : TextEnv) (text : String) (maxWidth : Nat) : Option String :=
  match env.cowsayRun (encode_for_escpos env text) maxWidth with
  | .notFound => none
  | .timeout => none
  | .raised _ => none
  | .exited code out _ => if code = 0 then some out else none

/-- Embeds `prepare_text_for_print` from `services/text.py`. Note the Python
truthiness test `if cowsay_output:`: an empty-string cowsay output also
falls back to plain wrapping. -/
def prepare_text_for_print (env : TextEnv) (text : String) (maxWidth : Nat)
    (useCowsay : Bool) : String :=
  if useCowsay then
    match generate_cowsay env text maxWidth with
    | some out =>
        if out = "" then wrap_text_for_printer (encode_for_escpos env text) maxWidth
        else out
    | none => wrap_text_for_printer (encode_for_escpos env text) maxWidth
  else
    wrap_text_for_printer (encode_for_escpos env text) maxWidth

/-- The external cowsay generator is unavailable: not found, timed out,
raised, or exited nonzero (the conditions under which `generate_cowsay`
returns `None` without any usable output). -/
def cowsayUnavailable : CowsayOutcome → Bool
  | .notFound => true
  | .timeout => true
  | .raised _ => true
  | .exited code _ _ => code ≠ 0

/-! ## Protocol adapter: connection (`PrinterService._connect_printer`) -/

/-- Embeds `_connect_printer` from `services/printer.py`, with the two transport
attempts supplied as oracles: try USB, on any failure try the file
device, and if both fail raise a `ConnectionError` whose message quotes
both underlying causes. -/
def connectPrinter {α : Type} (usb fileDev : Except String α) : Except String α :=
  match usb with
  | .ok p => .ok p
  | .error e =>
      match fileDev with
      | .ok p => .ok p
      | .error e2 =>
          .error ("Failed to connect to printer: USB failed (" ++ e
            ++ "), File failed (" ++ e2 ++ ")")

/-- Whether an `Except` result is an error. -/
def isErr {ε α : Type} : Except ε α → Bool
  | .error _ => true
  | .ok _ => false

/-! ## Protocol adapter: font scale command (`_set_font_size`) -/

/-- The ESC/POS GS ! size byte computed in `_set_font_size`:
`((width - 1) << 4) | (height - 1)`. -/
def sizeByte (w h : Nat) : Nat :=
  ((w - 1) <<< 4) ||| (h - 1)

/-! ## Trace semantics of the print paths (`services/printer.py`) -/

/-- Observable events of one print operation: device emissions
(`printer.text` / `printer._raw` / `printer.image` / `printer.cut`,
connect/close) and rendering-side actions (banner rendering, the 90°
rotation of the banner, the image-pipeline invocation). -/
inductive Ev where
  | connect
  | txt (s : String)
  | raw (bs : List Nat)
  | img (path : String)
  | cut
  | close
  | renderBanner (text outPath : String) (dots : Nat)
  | rotate90 (src dst : String)
  | procImage (src dst : String) (maxWidth : Nat) (rotate : Bool)
deriving DecidableEq, Repr

/-- Device / YAML configuration read by the printer service
(`yaml_config.get_int` / `get_bool` and `settings.store_path`), with the
per-font-size lookups as functions. `charsPerLine fs cowsay` models
`fonts.<fs>.<cowsay|text>_chars_per_line`. -/
structure Config where
  feedBeforeLines : Nat
  feedAfterLines : Nat
  cutPaper : Bool
  dotsPerLine : Nat
  fontWidth : String → Nat
  fontHeight : String → Nat
  charsPerLine : String → Bool → Nat
  storePath : String

/-- Emits `n` blank-line feeds (`printer.text("\n")` in a loop). -/
def feedLines (n : Nat) : List Ev :=
  List.replicate n (.txt "\n")

/-- Events of `_set_font_size`: always reset to 1x1 first, then emit the
composite size byte for the configured width/height multipliers. -/
def setFontSizeEv (cfg : Config) (fontSize : String) : List Ev :=
  [.raw [29, 33, 0],
   .raw [29, 33, sizeByte (cfg.fontWidth fontSize) (cfg.fontHeight fontSize)]]

/-- Events of `_reset_font_size`: reset to 1x1. -/
def resetFontSizeEv : List Ev :=
  [.raw [29, 33, 0]]

/-- Events of `_feed_and_cut`: feed-after lines, then cut if enabled. -/
def feedAndCutEv (cfg : Config) : List Ev :=
  feedLines cfg.feedAfterLines ++ (if cfg.cutPaper then [.cut] else [])

/-- Events of `_print_text_banner`: render the text to a horizontal
image, rotate it 90°, then connect and print it as an image with no
caption. -/
def printTextBannerTrace (cfg : Config) (jobId : Nat) (text : String) : List Ev :=
  let tempPath := cfg.storePath ++ "/banner_temp_" ++ toString jobId ++ ".png"
  let processedPath := cfg.storePath ++ "/banner_" ++ toString jobId ++ ".png"
  [.renderBanner text tempPath cfg.dotsPerLine,
   .rotate90 tempPath processedPath,
   .connect]
    ++ feedLines cfg.feedBeforeLines
    ++ [.img processedPath]
    ++ feedAndCutEv cfg
    ++ [.close]

/-- Events of `print_text`: banner font size is redirected to
`_print_text_banner`; otherwise connect, feed-before, set font scale,
emit the prepared text and a trailing newline, reset font scale,
feed-after/cut, close. -/
def printTextTrace (cfg : Config) (env : TextEnv) (jobId : Nat) (text : String)
    (fontSize : String) (useCowsay : Bool) : List Ev :=
  if fontSize = "banner" then
    printTextBannerTrace cfg jobId text
  else
    let maxWidth := cfg.charsPerLine fontSize useCowsay
    let prepared := prepare_text_for_print env text maxWidth useCowsay
    [.connect]
      ++ feedLines cfg.feedBeforeLines
      ++ setFontSizeEv cfg fontSize
      ++ [.txt prepared, .txt "\n"]
      ++ resetFontSizeEv
      ++ feedAndCutEv cfg
      ++ [.close]

/-- The `processed_<name>` sibling path computed in `print_image`
(`Path(image_path).parent / f"processed_{name}"`). -/
def processedImagePath (p : String) : String :=
  match (p.splitOn "/").reverse with
  | [] => "processed_"
  | name :: restRev => String.intercalate "/" (restRev.reverse ++ ["processed_" ++ name])

/-- Events of `print_image`: connect, feed-before, run the image
pipeline (rotating iff banner mode), emit the bitmap, then — only when a
non-empty caption is present and the job is not in banner mode — a
newline, font-scale set, the prepared caption, a newline and a
font-scale reset; finally feed-after/cut and close. The Python guard is
`if caption and not is_banner:`, so an empty caption is also skipped. -/
def printImageTrace (cfg : Config) (env : TextEnv) (imagePath : String)
    (caption : Option String) (fontSize : String) (isBanner : Bool) : List Ev :=
  let processedPath := processedImagePath imagePath
  [.connect]
    ++ feedLines cfg.feedBeforeLines
    ++ [.procImage imagePath processedPath cfg.dotsPerLine isBanner]
    ++ [.img processedPath]
    ++ (match caption with
        | some c =>
            if c = "" || isBanner then []
            else
              [.txt "\n"]
                ++ setFontSizeEv cfg fontSize
                ++ [.txt (prepare_text_for_print env c (cfg.charsPerLine fontSize false) false),
                    .txt "\n"]
                ++ resetFontSizeEv
        | none => [])
    ++ feedAndCutEv cfg
    ++ [.close]

/-! ## Job model and orchestrator (`process_job`, `core/models.py`) -/

/-- The `DingJob` row (`core/models.py`), restricted to the fields the
printer service reads or writes. Timestamps are abstract `Nat` clock
values. -/
structure DingJob where
  id : Nat
  job_type : String
  content_type : String
  text_content : String
  image_path : String
  font_size : Option String
  status : String
  error_message : Option String
  completed_at : Option Nat
deriving DecidableEq, Repr

/-- The job table. -/
def JobStore := List DingJob

/-- Embeds `db.query(DingJob).filter(DingJob.id == job_id).first()`. -/
def findJob (db : JobStore) (jobId : Nat) : Option DingJob :=
  List.find? (fun j => j.id = jobId) db

/-- Update the row with the given id in place. -/
def updateJob (db : JobStore) (jobId : Nat) (f : DingJob → DingJob) : JobStore :=
  List.map (fun j => if j.id = jobId then f j else j) db

/-- The dispatch performed by `process_job` once the job is in
`processing`: the trace of the selected print path. `job_type` values
outside {text, image, text_with_image} fall through with no printing. -/
def dispatchTrace (cfg : Config) (env : TextEnv) (job : DingJob) : List Ev :=
  let fontSize := job.font_size.getD "medium"
  if job.job_type = "text" then
    printTextTrace cfg env job.id job.text_content fontSize (job.content_type = "cowsay")
  else if job.job_type = "image" then
    printImageTrace cfg env job.image_path none fontSize (job.content_type = "banner")
  else if job.job_type = "text_with_image" then
    printImageTrace cfg env job.image_path (some job.text_content) fontSize false
  else []

/-- The `try:` block of `process_job`: raise `ValueError` if the job is
missing, otherwise commit `processing`, run the dispatched print (whose
outcome — normal return or a raised exception message — is the
`printOutcome` oracle), and on success commit `success` with
`completed_at`. An error carries the database state at the point the
exception left the block. -/
def processJobTry (db : JobStore) (jobId : Nat) (printOutcome : Except String Unit)
    (now : Nat) : Except (String × JobStore) JobStore :=
  match findJob db jobId with
  | none => .error ("Job " ++ toString jobId ++ " not found", db)
  | some _ =>
      let db1 := updateJob db jobId (fun j => { j with status := "processing" })
      match printOutcome with
      | .error e => .error (e, db1)
      | .ok _ =>
          .ok (updateJob db1 jobId
            (fun j => { j with status := "success", completed_at := some now }))

/-- Embeds `process_job` from `services/printer.py`: the `try:` body above, with
the `except Exception:` handler that re-queries the job and, when it
exists, commits `failed` with the exception message and `completed_at`.
The handler swallows the exception, so `process_job` always returns a
database state and never propagates. -/
def process_job (db : JobStore) (jobId : Nat) (printOutcome : Except String Unit)
    (now : Nat) : JobStore :=
  match processJobTry db jobId printOutcome now with
  | .ok db2 => db2
  | .error (e, db1) =>
      match findJob db1 jobId with
      | none => db1
      | some _ =>
          updateJob db1 jobId (fun j =>
            { j with status := "failed", error_message := some e,
                     completed_at := some now })

/-! ## Image pipeline (`services/image.py`)

Raster images are modelled as a size, a PIL mode string, a source
format string and a total pixel function. Pixels carry the four
channels canonically (for `L`/`LA` images the grey level is stored in
all of `r`,`g`,`b`; the alpha channel — `split()[3]` for RGBA,
`split()[1]` for LA/PA — is the `a` field). -/

/-- One pixel, channels 0–255. -/
structure Pix where
  r : Nat
  g : Nat
  b : Nat
  a : Nat
deriving DecidableEq, Repr

/-- Opaque white. -/
def whitePix : Pix := ⟨255, 255, 255, 255⟩

/-- Opaque black. -/
def blackPix : Pix := ⟨0, 0, 0, 255⟩

/-- An in-memory raster image. -/
structure Img where
  width : Nat
  height : Nat
  mode : String
  format : String
  px : Nat → Nat → Pix

/-- The modes carrying an alpha/transparency channel that
`process_image` composites away: `img.mode in ('RGBA', 'LA', 'PA')`. -/
def hasAlpha (m : String) : Bool :=
  m = "RGBA" || m = "LA" || m = "PA"

/-- Alpha blend of one channel onto a background: `mask = 0` keeps the
background, `mask = 255` takes the foreground (PIL `paste` with an
alpha mask). -/
def blend (mask fg bg : Nat) : Nat :=
  (fg * mask + bg * (255 - mask)) / 255

/-- The transparency-handling step of `process_image`: paste the image
onto an opaque white RGB background of the same size, using its alpha
channel as the mask. -/
def compositeOnWhite (img : Img) : Img :=
  { img with
    mode := "RGB",
    px := fun x y =>
      let p := img.px x y
      { r := blend p.a p.r 255, g := blend p.a p.g 255,
        b := blend p.a p.b 255, a := 255 } }

/-- Models `img.convert('RGB')`: mode change; the canonical channel values are
already per-pixel RGB in this model. -/
def convRGB (img : Img) : Img :=
  { img with mode := "RGB" }

/-- Models `img.transpose(Image.ROTATE_90)`: 90° counterclockwise, swapping
the dimensions. -/
def rotate90 (img : Img) : Img :=
  { img with
    width := img.height, height := img.width,
    px := fun x y => img.px (img.width - 1 - y) x }

/-- The width-fitting step of `process_image`: when the width exceeds
`maxWidth`, scale to width `maxWidth` with height
`int(height * maxWidth / width)` (the LANCZOS resample itself is
abstracted as coordinate sampling; the claims constrain only the output
dimensions). Otherwise the image is untouched — never upscaled. -/
def resizeToWidth (img : Img) (maxWidth : Nat) : Img :=
  if maxWidth < img.width then
    let hsize := img.height * maxWidth / img.width
    { img with
      width := maxWidth, height := hsize,
      px := fun x y => img.px (x * img.width / maxWidth) (y * img.height / max hsize 1) }
  else img

/-- Luminance used by the 1-bit conversion model. -/
def lumaOf (p : Pix) : Nat :=
  (p.r * 299 + p.g * 587 + p.b * 114) / 1000

/-- Models `img.convert('1')`: 1-bit black/white (quantization modelled as a
luminance threshold; the claims constrain only mode and dimensions). -/
def convBW (img : Img) : Img :=
  { img with
    mode := "1",
    px := fun x y => if 128 ≤ lumaOf (img.px x y) then whitePix else blackPix }

/-- Steps 1–3 of `process_image`, in source order: GIF first frame
flattened to RGB, alpha composited onto white, residual non-RGB non-L
modes forced to RGB. -/
def normalizeColor (img : Img) : Img :=
  let i1 := if img.format = "GIF" then convRGB img else img
  let i2 := if hasAlpha i1.mode then compositeOnWhite i1 else i1
  if i2.mode = "RGB" || i2.mode = "L" then i2 else convRGB i2

/-- Embeds `process_image` from `services/image.py`, in source order: color
normalization (steps 1–3 above), rotate 90° before resizing when
requested, downscale to the device width, and finally 1-bit
conversion. -/
def process_image (img : Img) (maxWidth : Nat) (rotate convertToBW : Bool) : Img :=
  let i3 := normalizeColor img
  let i4 := if rotate then rotate90 i3 else i3
  let i5 := resizeToWidth i4 maxWidth
  if convertToBW then convBW i5 else i5

/-- Width of the image entering the resize step: swapped iff the 90°
rotation was applied. -/
def rotatedWidth (img : Img) (rotate : Bool) : Nat :=
  if rotate then img.height else img.width

/-- Height of the image entering the resize step. -/
def rotatedHeight (img : Img) (rotate : Bool) : Nat :=
  if rotate then img.width else img.height

/-! ## Banner renderer (`services/text_renderer.py`) -/

/-- Embeds `render_text_banner` from `services/text_renderer.py`, observed at
its contract: it raises `ValueError("Text cannot be empty")` exactly
when `text.strip()` is falsy, and otherwise returns `output_path`. The
body's font search, drawing and saving are filesystem/graphics effects
with no observable value besides the returned path (font-lookup
failures are recovered inside `find_monospace_font`). -/
def render_text_banner (text outputPath : String) (_dotsPerLine : Nat) :
    Except String String :=
  if !(pyStripNonempty text) then .error "Text cannot be empty"
  else .ok outputPath

/-! ## Observations on traces -/

/-- The size bytes of the font-scale commands (`GS !` = `\x1d\x21`) in
a trace, in emission order. -/
def fontScaleBytes (tr : List Ev) : List Nat :=
  tr.filterMap (fun ev =>
    match ev with
    | .raw [29, 33, n] => some n
    | _ => none)

/-- Whether an event is a Banner Renderer invocation. -/
def isRenderBannerEv : Ev → Bool
  | .renderBanner _ _ _ => true
  | _ => false

/-- Whether an event is the 90° banner rotation. -/
def isRotate90Ev : Ev → Bool
  | .rotate90 _ _ => true
  | _ => false

/-- Whether an event is a bitmap emission (`printer.image`). -/
def isImgEv : Ev → Bool
  | .img _ => true
  | _ => false

/-- Every text emission in the trace is a bare line feed — i.e. the
trace carries no caption or message text. -/
def onlyFeedText (tr : List Ev) : Bool :=
  tr.all (fun ev =>
    match ev with
    | .txt s => s = "\n"
    | _ => true)

/-! ## Concrete instances used by counterexamples and witnesses -/

/-- A concrete device configuration (2×2 font multipliers). -/
def cfgEx : Config where
  feedBeforeLines := 1
  feedAfterLines := 3
  cutPaper := true
  dotsPerLine := 384
  fontWidth := fun _ => 2
  fontHeight := fun _ => 2
  charsPerLine := fun _ _ => 32
  storePath := "store"

/-- A concrete text environment: identity encoders, cowsay missing. -/
def envEx : TextEnv where
  demojize := id
  unidecode := id
  cowsayRun := fun _ _ => .notFound

/-- A `kind = text`, `contentStyle = banner` job whose `fontSize` is
`medium`. -/
def jobTextBannerStyle : DingJob where
  id := 7
  job_type := "text"
  content_type := "banner"
  text_content := "hello"
  image_path := ""
  font_size := some "medium"
  status := "pending"
  error_message := none
  completed_at := none

/-- A `kind = text` job with `fontSize = banner`. -/
def jobTextBannerFont : DingJob where
  id := 8
  job_type := "text"
  content_type := "plain"
  text_content := "hello"
  image_path := ""
  font_size := some "banner"
  status := "pending"
  error_message := none
  completed_at := none

/-- A one-row job table holding `jobTextBannerStyle`. -/
def dbEx : JobStore := [jobTextBannerStyle]

/-- A concrete opaque RGB image, 100×50. -/
def imgRGB : Img where
  width := 100
  height := 50
  mode := "RGB"
  format := "PNG"
  px := fun _ _ => blackPix

/-- A concrete wide RGB image, 800×600. -/
def imgWide : Img where
  width := 800
  height := 600
  mode := "RGB"
  format := "JPEG"
  px := fun _ _ => blackPix

/-- A concrete RGBA image whose pixels are fully transparent red. -/
def imgRGBA : Img where
  width := 10
  height := 10
  mode := "RGBA"
  format := "PNG"
  px := fun _ _ => ⟨255, 0, 0, 0⟩

/-! ## Helper lemmas -/

@[simp]
theorem fontScaleBytes_nil : fontScaleBytes [] = [] := rfl

@[simp]
theorem fontScaleBytes_append (l1 l2 : List Ev) :
    fontScaleBytes (l1 ++ l2) = fontScaleBytes l1 ++ fontScaleBytes l2 := by
  simp [fontScaleBytes]

@[simp]
theorem fontScaleBytes_cons_connect (tr : List Ev) :
    fontScaleBytes (Ev.connect :: tr) = fontScaleBytes tr := rfl

@[simp]
theorem fontScaleBytes_cons_txt (s : String) (tr : List Ev) :
    fontScaleBytes (Ev.txt s :: tr) = fontScaleBytes tr := rfl

@[simp]
theorem fontScaleBytes_cons_img (p : String) (tr : List Ev) :
    fontScaleBytes (Ev.img p :: tr) = fontScaleBytes tr := rfl

@[simp]
theorem fontScaleBytes_cons_cut (tr : List Ev) :
    fontScaleBytes (Ev.cut :: tr) = fontScaleBytes tr := rfl

@[simp]
theorem fontScaleBytes_cons_close (tr : List Ev) :
    fontScaleBytes (Ev.close :: tr) = fontScaleBytes tr := rfl

@[simp]
theorem fontScaleBytes_cons_renderBanner (t p : String) (d : Nat) (tr : List Ev) :
    fontScaleBytes (Ev.renderBanner t p d :: tr) = fontScaleBytes tr := rfl

@[simp]
theorem fontScaleBytes_cons_rotate90 (s d : String) (tr : List Ev) :
    fontScaleBytes (Ev.rotate90 s d :: tr) = fontScaleBytes tr := rfl

@[simp]
theorem fontScaleBytes_cons_procImage (s d : String) (m : Nat) (r : Bool) (tr : List Ev) :
    fontScaleBytes (Ev.procImage s d m r :: tr) = fontScaleBytes tr := rfl

@[simp]
theorem fontScaleBytes_cons_scale (n : Nat) (tr : List Ev) :
    fontScaleBytes (Ev.raw [29, 33, n] :: tr) = n :: fontScaleBytes tr := rfl

@[simp]
theorem fontScaleBytes_replicate_txt (n : Nat) (s : String) :
    fontScaleBytes (List.replicate n (Ev.txt s)) = [] := by
  induction n with
  | zero => rfl
  | succ k ih => simpa [List.replicate_succ] using ih

@[simp]
theorem fontScaleBytes_feedLines (n : Nat) : fontScaleBytes (feedLines n) = [] := by
  simp [feedLines]

@[simp]
theorem fontScaleBytes_feedAndCutEv (cfg : Config) :
    fontScaleBytes (feedAndCutEv cfg) = [] := by
  unfold feedAndCutEv
  split <;> simp

theorem any_feedLines_false {p : Ev → Bool} (hp : p (Ev.txt "\n") = false) (n : Nat) :
    (feedLines n).any p = false := by
  simp [feedLines, hp]

theorem all_feedLines_true {p : Ev → Bool} (hp : p (Ev.txt "\n") = true) (n : Nat) :
    (feedLines n).all p = true := by
  simp [feedLines, hp]

theorem findJob_updateJob (db : JobStore) (jobId : Nat) (f : DingJob → DingJob)
    (hf : ∀ j, (f j).id = j.id) :
    findJob (updateJob db jobId f) jobId = (findJob db jobId).map f := by
  induction db with
  | nil => rfl
  | cons a tl ih =>
      unfold findJob updateJob at *
      by_cases h : a.id = jobId
      · simp [List.find?, h, hf a]
      · simp only [List.map_cons, if_neg h]
        rw [List.find?_cons_of_neg, List.find?_cons_of_neg] <;> simp [h, ih]

theorem pyStripNonempty_eq_not_all (s : String) :
    pyStripNonempty s = !(s.toList.all pyWhitespace) := by
  unfold pyStripNonempty
  induction s.toList with
  | nil => rfl
  | cons c l ih => cases h : pyWhitespace c <;> simp [h, ih]

@[simp]
theorem convRGB_width (img : Img) : (convRGB img).width = img.width := rfl

@[simp]
theorem convRGB_height (img : Img) : (convRGB img).height = img.height := rfl

@[simp]
theorem compositeOnWhite_width (img : Img) : (compositeOnWhite img).width = img.width := rfl

@[simp]
theorem compositeOnWhite_height (img : Img) : (compositeOnWhite img).height = img.height := rfl

@[simp]
theorem compositeOnWhite_mode (img : Img) : (compositeOnWhite img).mode = "RGB" := rfl

@[simp]
theorem rotate90_width (img : Img) : (rotate90 img).width = img.height := rfl

@[simp]
theorem rotate90_height (img : Img) : (rotate90 img).height = img.width := rfl

@[simp]
theorem rotate90_mode (img : Img) : (rotate90 img).mode = img.mode := rfl

@[simp]
theorem convBW_width (img : Img) : (convBW img).width = img.width := rfl

@[simp]
theorem convBW_height (img : Img) : (convBW img).height = img.height := rfl

@[simp]
theorem convBW_mode (img : Img) : (convBW img).mode = "1" := rfl

theorem normalizeColor_width (img : Img) : (normalizeColor img).width = img.width := by
  simp [normalizeColor, apply_ite Img.width]

theorem normalizeColor_height (img : Img) : (normalizeColor img).height = img.height := by
  simp [normalizeColor, apply_ite Img.height]

theorem modeForceRGB (i : Img) :
    (if i.mode = "RGB" || i.mode = "L" then i else convRGB i).mode = "RGB" ∨
    (if i.mode = "RGB" || i.mode = "L" then i else convRGB i).mode = "L" := by
  by_cases h : (i.mode = "RGB" || i.mode = "L") = true
  · rw [if_pos h]
    simpa using h
  · rw [if_neg h]
    exact Or.inl rfl

theorem normalizeColor_mode (img : Img) :
    (normalizeColor img).mode = "RGB" ∨ (normalizeColor img).mode = "L" := by
  simp only [normalizeColor]
  exact modeForceRGB _

theorem resizeToWidth_width (img : Img) (m : Nat) :
    (resizeToWidth img m).width = if m < img.width then m else img.width := by
  unfold resizeToWidth
  split <;> rfl

theorem resizeToWidth_height (img : Img) (m : Nat) :
    (resizeToWidth img m).height =
      if m < img.width then img.height * m / img.width else img.height := by
  unfold resizeToWidth
  split <;> rfl

theorem resizeToWidth_mode (img : Img) (m : Nat) :
    (resizeToWidth img m).mode = img.mode := by
  unfold resizeToWidth
  split <;> rfl

theorem process_image_width_eq (img : Img) (maxW : Nat) (rotate toBW : Bool) :
    (process_image img maxW rotate toBW).width =
      if maxW < rotatedWidth img rotate then maxW else rotatedWidth img rotate := by
  unfold process_image rotatedWidth
  cases rotate <;> cases toBW <;>
    simp [resizeToWidth_width, normalizeColor_width, normalizeColor_height]

theorem process_image_height_eq (img : Img) (maxW : Nat) (rotate toBW : Bool) :
    (process_image img maxW rotate toBW).height =
      if maxW < rotatedWidth img rotate then
        rotatedHeight img rotate * maxW / rotatedWidth img rotate
      else rotatedHeight img rotate := by
  unfold process_image rotatedWidth rotatedHeight
  cases rotate <;> cases toBW <;>
    simp [resizeToWidth_height, resizeToWidth_width,
      normalizeColor_width, normalizeColor_height]

theorem process_image_mode_eq (img : Img) (maxW : Nat) (rotate toBW : Bool) :
    (process_image img maxW rotate toBW).mode =
      if toBW then "1" else (normalizeColor img).mode := by
  unfold process_image
  cases rotate <;> cases toBW <;> simp [resizeToWidth_mode]

theorem blend_zero_mask (fg : Nat) : blend 0 fg 255 = 255 := by
  unfold blend
  omega

/-! ## Claims -/

/-- Claim C4: for every width multiplier `w` and height multiplier `h`
in 1..8, the font-scale size byte computed by `_set_font_size` carries
`w - 1` in bits 4–6 and `h - 1` in bits 0–2. -/
theorem sizeByte_encoding (w h : Nat) (hw1 : 1 ≤ w) (hw2 : w ≤ 8)
    (hh1 : 1 ≤ h) (hh2 : h ≤ 8) :
    (sizeByte w h >>> 4) &&& 7 = w - 1 ∧ sizeByte w h &&& 7 = h - 1 := by
  interval_cases w <;> interval_cases h <;> exact ⟨by decide, by decide⟩

/-- Witness for C4 at the concrete multipliers 3×5. -/
theorem sizeByte_encoding_witness :
    (sizeByte 3 5 >>> 4) &&& 7 = 3 - 1 ∧ sizeByte 3 5 &&& 7 = 5 - 1 :=
  sizeByte_encoding 3 5 (by decide) (by decide) (by decide) (by decide)

/-- Claim C5: `_connect_printer` tries USB first (returning its printer
on success for any state of the file device), falls back to the file
device on any USB failure, fails if and only if both attempts fail, and
the raised `ConnectionError` message quotes both underlying causes. -/
theorem connectPrinter_fallback :
    (∀ (α : Type) (p : α) (fileDev : Except String α),
      connectPrinter (.ok p) fileDev = .ok p) ∧
    (∀ (α : Type) (e : String) (p : α),
      connectPrinter (.error e) (.ok p) = .ok p) ∧
    (∀ (α : Type) (e e2 : String),
      connectPrinter (Except.error e : Except String α) (Except.error e2) =
        Except.error ("Failed to connect to printer: USB failed (" ++ e
          ++ "), File failed (" ++ e2 ++ ")")) ∧
    (∀ (α : Type) (usb fileDev : Except String α),
      isErr (connectPrinter usb fileDev) = (isErr usb && isErr fileDev)) := by
  refine ⟨fun α p f => rfl, fun α e p => rfl, fun α e e2 => rfl, fun α u f => ?_⟩
  cases u <;> cases f <;> rfl

/-- Claim C8: whenever the external cowsay generator is unavailable
(not found, timed out, raised, or exited nonzero), stylized preparation
returns exactly the plain preparation, and no error escapes
(`prepare_text_for_print` is total). -/
theorem prepare_stylized_fallback (env : TextEnv) (text : String) (maxWidth : Nat)
    (h : cowsayUnavailable (env.cowsayRun (encode_for_escpos env text) maxWidth) = true) :
    prepare_text_for_print env text maxWidth true =
      prepare_text_for_print env text maxWidth false := by
  unfold prepare_text_for_print generate_cowsay
  cases hc : env.cowsayRun (encode_for_escpos env text) maxWidth with
  | notFound => simp
  | timeout => simp
  | raised m => simp
  | exited code out err =>
      rw [hc] at h
      unfold cowsayUnavailable at h
      simp only [decide_eq_true_eq] at h
      simp [h]

/-- Witness for C8: with cowsay missing, stylized output equals plain
output. -/
theorem prepare_stylized_fallback_witness :
    prepare_text_for_print envEx "hello world" 5 true =
      prepare_text_for_print envEx "hello world" 5 false :=
  prepare_stylized_fallback envEx "hello world" 5 rfl

/-- Claim C9: `render_text_banner` fails with the validation error
exactly when the text consists only of whitespace (Python
`not text.strip()`), and returns the output path for every other
text. -/
theorem render_text_banner_validation (text outputPath : String) (dots : Nat) :
    (render_text_banner text outputPath dots = .error "Text cannot be empty" ↔
      text.toList.all pyWhitespace = true) ∧
    (text.toList.all pyWhitespace = false →
      render_text_banner text outputPath dots = .ok outputPath) := by
  unfold render_text_banner
  rw [pyStripNonempty_eq_not_all]
  cases hall : text.toList.all pyWhitespace <;> simp

/-- Witness for C9: `"HELLO"` renders to the requested path, a blank
text is rejected. -/
theorem render_text_banner_validation_witness :
    render_text_banner "HELLO" "banner.png" 384 = .ok "banner.png" ∧
    render_text_banner "  " "banner.png" 384 = .error "Text cannot be empty" :=
  ⟨(render_text_banner_validation "HELLO" "banner.png" 384).2 (by decide),
   (render_text_banner_validation "  " "banner.png" 384).1.mpr (by decide)⟩

/-- Claim C10: a `process_job` call with an unknown job id returns
normally (the internal `ValueError` is swallowed by the handler) and
leaves every job record untouched. -/
theorem process_job_unknown_id_noop (db : JobStore) (jobId : Nat)
    (printOutcome : Except String Unit) (now : Nat)
    (h : findJob db jobId = none) :
    process_job db jobId printOutcome now = db := by
  unfold process_job processJobTry
  rw [h]
  simp [h]

/-- Witness for C10 on a one-row table and a missing id. -/
theorem process_job_unknown_id_noop_witness :
    process_job dbEx 9 (.ok ()) 0 = dbEx :=
  process_job_unknown_id_noop dbEx 9 (.ok ()) 0 (by decide)

/-- Claim C2: when the dispatched print raises (any rendering or device
emission exception, surfaced as the `printOutcome` oracle), and the job
exists, `process_job` commits `failed` with the exception's message and
a completion time; the handler swallows the exception, so `process_job`
is a total function on the job table and never propagates. -/
theorem process_job_exception_sets_failed (db : JobStore) (jobId : Nat) (e : String)
    (now : Nat) (j : DingJob) (h : findJob db jobId = some j) :
    findJob (process_job db jobId (.error e) now) jobId =
      some { j with status := "failed", error_message := some e,
                    completed_at := some now } := by
  have hproc : findJob (updateJob db jobId
      (fun j => { j with status := "processing" })) jobId
      = some { j with status := "processing" } := by
    rw [findJob_updateJob db jobId (fun j => { j with status := "processing" })
      (fun _ => rfl), h]
    rfl
  unfold process_job processJobTry
  rw [h]
  simp only [hproc]
  rw [findJob_updateJob _ _
    (fun j => { j with status := "failed", error_message := some e, completed_at := some now })
    (fun _ => rfl), hproc]
  rfl

/-- Witness for C2: a failing text print marks the stored job failed
with the cause and completion time. -/
theorem process_job_exception_sets_failed_witness :
    findJob (process_job dbEx 7 (.error "Error printing text: boom") 42) 7 =
      some { jobTextBannerStyle with
              status := "failed",
              error_message := some "Error printing text: boom",
              completed_at := some 42 } :=
  process_job_exception_sets_failed dbEx 7 "Error printing text: boom" 42
    jobTextBannerStyle (by decide)

/-- Claim C3: for every print through the adapter text path (any
configured non-banner `fontSize`, any multiplier configuration) and for
every captioned non-banner image print, the sequence of font-scale size
bytes in the emitted stream is exactly reset, set, reset — so the first
and the last font-scale byte sent are the zero/zero (1×1) byte
`\x1d\x21\x00`. (A `fontSize = banner` text job is redirected down the
image path and emits no text or caption at all.) -/
theorem fontScale_reset_set_reset :
    (∀ (cfg : Config) (env : TextEnv) (jobId : Nat) (text fs : String) (cow : Bool),
      fs ≠ "banner" →
      fontScaleBytes (printTextTrace cfg env jobId text fs cow) =
        [0, sizeByte (cfg.fontWidth fs) (cfg.fontHeight fs), 0]) ∧
    (∀ (cfg : Config) (env : TextEnv) (path c fs : String), c ≠ "" →
      fontScaleBytes (printImageTrace cfg env path (some c) fs false) =
        [0, sizeByte (cfg.fontWidth fs) (cfg.fontHeight fs), 0]) := by
  constructor
  · intro cfg env jobId text fs cow hfs
    simp [printTextTrace, hfs, setFontSizeEv, resetFontSizeEv]
  · intro cfg env path c fs hc
    simp [printImageTrace, hc, setFontSizeEv, resetFontSizeEv]

/-- Witness for C3: a medium text print and a captioned image print on
the concrete configuration. -/
theorem fontScale_reset_set_reset_witness :
    fontScaleBytes (printTextTrace cfgEx envEx 1 "hi" "medium" false) =
      [0, sizeByte 2 2, 0] ∧
    fontScaleBytes (printImageTrace cfgEx envEx "a.png" (some "cap") "medium" false) =
      [0, sizeByte 2 2, 0] :=
  ⟨fontScale_reset_set_reset.1 cfgEx envEx 1 "hi" "medium" false (by decide),
   fontScale_reset_set_reset.2 cfgEx envEx "a.png" "cap" "medium" (by decide)⟩

/-- Claim C1 (counterexample): a job with kind `text` and contentStyle
`banner` but `fontSize = medium` is NOT dispatched through the Banner
Renderer — no banner rendering, no 90° rotation and no bitmap emission
occur; `process_job` keys banner mode for text jobs on `fontSize`, not
on `contentStyle`. -/
theorem text_contentStyle_banner_counterexample :
    jobTextBannerStyle.job_type = "text" ∧
    jobTextBannerStyle.content_type = "banner" ∧
    (dispatchTrace cfgEx envEx jobTextBannerStyle).any isRenderBannerEv = false ∧
    (dispatchTrace cfgEx envEx jobTextBannerStyle).any isRotate90Ev = false ∧
    (dispatchTrace cfgEx envEx jobTextBannerStyle).any isImgEv = false := by
  refine ⟨rfl, rfl, ?_, ?_, ?_⟩ <;> decide

/-- Claim C1 (amended): for every job with kind `text` and
`fontSize = banner`, the dispatcher invokes the Banner Renderer,
applies the 90° rotate step, and emits down the Protocol Adapter image
path with no caption: every text emission in the trace is a bare line
feed and no font-scale command is sent. -/
theorem text_fontSize_banner_dispatch (cfg : Config) (env : TextEnv) (job : DingJob)
    (ht : job.job_type = "text") (hf : job.font_size = some "banner") :
    (dispatchTrace cfg env job).any isRenderBannerEv = true ∧
    (dispatchTrace cfg env job).any isRotate90Ev = true ∧
    (dispatchTrace cfg env job).any isImgEv = true ∧
    onlyFeedText (dispatchTrace cfg env job) = true ∧
    fontScaleBytes (dispatchTrace cfg env job) = [] := by
  have htrace : dispatchTrace cfg env job =
      printTextBannerTrace cfg job.id job.text_content := by
    simp [dispatchTrace, ht, hf, printTextTrace]
  rw [htrace]
  unfold printTextBannerTrace feedAndCutEv
  cases hcut : cfg.cutPaper <;>
    simp [isRenderBannerEv, isRotate90Ev, isImgEv, onlyFeedText, feedLines]

/-- Witness for C1 (amended): the concrete `fontSize = banner` text
job. -/
theorem text_fontSize_banner_dispatch_witness :
    (dispatchTrace cfgEx envEx jobTextBannerFont).any isRenderBannerEv = true ∧
    (dispatchTrace cfgEx envEx jobTextBannerFont).any isRotate90Ev = true ∧
    (dispatchTrace cfgEx envEx jobTextBannerFont).any isImgEv = true ∧
    onlyFeedText (dispatchTrace cfgEx envEx jobTextBannerFont) = true ∧
    fontScaleBytes (dispatchTrace cfgEx envEx jobTextBannerFont) = [] :=
  text_fontSize_banner_dispatch cfgEx envEx jobTextBannerFont rfl rfl

/-- Claim C6: the image pipeline never upscales — when the width
entering the resize step (after any rotation) fits `maxWidth`, both
dimensions are unchanged; when it exceeds `maxWidth`, the output width
is exactly `maxWidth` and the output height is the floor of the
proportionally scaled height (so it is within 1px of the exact
ratio). -/
theorem process_image_width_fit (img : Img) (maxW : Nat) (rotate toBW : Bool) :
    (rotatedWidth img rotate ≤ maxW →
      (process_image img maxW rotate toBW).width = rotatedWidth img rotate ∧
      (process_image img maxW rotate toBW).height = rotatedHeight img rotate) ∧
    (maxW < rotatedWidth img rotate →
      (process_image img maxW rotate toBW).width = maxW ∧
      (process_image img maxW rotate toBW).height =
        rotatedHeight img rotate * maxW / rotatedWidth img rotate ∧
      (process_image img maxW rotate toBW).height * rotatedWidth img rotate ≤
        rotatedHeight img rotate * maxW ∧
      rotatedHeight img rotate * maxW <
        ((process_image img maxW rotate toBW).height + 1) * rotatedWidth img rotate) := by
  constructor
  · intro hle
    rw [process_image_width_eq, process_image_height_eq]
    rw [if_neg (Nat.not_lt.mpr hle), if_neg (Nat.not_lt.mpr hle)]
    exact ⟨rfl, rfl⟩
  · intro hlt
    rw [process_image_width_eq, process_image_height_eq]
    rw [if_pos hlt, if_pos hlt]
    refine ⟨rfl, rfl, Nat.div_mul_le_self _ _, ?_⟩
    have hpos : 0 < rotatedWidth img rotate := Nat.lt_of_le_of_lt (Nat.zero_le _) hlt
    have hmod : rotatedHeight img rotate * maxW % rotatedWidth img rotate <
        rotatedWidth img rotate := Nat.mod_lt _ hpos
    calc rotatedHeight img rotate * maxW
        = rotatedWidth img rotate *
            (rotatedHeight img rotate * maxW / rotatedWidth img rotate) +
            rotatedHeight img rotate * maxW % rotatedWidth img rotate :=
          (Nat.div_add_mod _ _).symm
      _ < rotatedWidth img rotate *
            (rotatedHeight img rotate * maxW / rotatedWidth img rotate) +
            rotatedWidth img rotate := Nat.add_lt_add_left hmod _
      _ = (rotatedHeight img rotate * maxW / rotatedWidth img rotate + 1) *
            rotatedWidth img rotate := by ring

/-- Witness for C6: a 100-wide image is untouched at `maxWidth = 384`;
an 800×600 image is scaled to 384×288. -/
theorem process_image_width_fit_witness :
    ((process_image imgRGB 384 false true).width = rotatedWidth imgRGB false ∧
      (process_image imgRGB 384 false true).height = rotatedHeight imgRGB false) ∧
    (process_image imgWide 384 false true).width = 384 ∧
    (process_image imgWide 384 false true).height =
      rotatedHeight imgWide false * 384 / rotatedWidth imgWide false :=
  ⟨(process_image_width_fit imgRGB 384 false true).1 (by decide),
   ((process_image_width_fit imgWide 384 false true).2 (by decide)).1,
   ((process_image_width_fit imgWide 384 false true).2 (by decide)).2.1⟩

/-- Claim C7: for every source image with an alpha channel, the
pipeline output has no alpha channel; the compositing step pastes the
image onto an opaque white background with the alpha channel as the
mask, so every fully transparent pixel becomes white — and when the
pipeline performs no geometry change (non-GIF source, no rotation, no
resize, no 1-bit conversion) the output pixel at that position is
white. -/
theorem process_image_alpha_white (img : Img) (maxW : Nat) (rotate toBW : Bool)
    (halpha : hasAlpha img.mode = true) :
    hasAlpha (process_image img maxW rotate toBW).mode = false ∧
    (∀ x y, (img.px x y).a = 0 → (compositeOnWhite img).px x y = whitePix) ∧
    (img.format ≠ "GIF" → rotate = false → toBW = false → img.width ≤ maxW →
      ∀ x y, (img.px x y).a = 0 →
        (process_image img maxW rotate toBW).px x y = whitePix) := by
  refine ⟨?_, ?_, ?_⟩
  · rw [process_image_mode_eq]
    cases toBW with
    | true => simp [hasAlpha]
    | false =>
        rcases normalizeColor_mode img with h | h <;> simp [h, hasAlpha]
  · intro x y ha
    simp [compositeOnWhite, ha, blend_zero_mask, whitePix]
  · intro hgif hrot hbw hw x y ha
    have hres : process_image img maxW rotate toBW = compositeOnWhite img := by
      subst hrot hbw
      simp [process_image, normalizeColor, hgif, halpha, resizeToWidth,
        Nat.not_lt.mpr hw]
    rw [hres]
    simp [compositeOnWhite, ha, blend_zero_mask, whitePix]

/-- Witness for C7: a fully transparent RGBA image composites to white
and leaves the pipeline with no alpha channel. -/
theorem process_image_alpha_white_witness :
    hasAlpha (process_image imgRGBA 384 false true).mode = false ∧
    (compositeOnWhite imgRGBA).px 0 0 = whitePix ∧
    (process_image imgRGBA 384 false false).px 0 0 = whitePix :=
  ⟨(process_image_alpha_white imgRGBA 384 false true (by decide)).1,
   (process_image_alpha_white imgRGBA 384 false true (by decide)).2.1 0 0 (by decide),
   (process_image_alpha_white imgRGBA 384 false false (by decide)).2.2 (by decide)
     rfl rfl (by decide) 0 0 (by decide)⟩

end Ding
